import Mathlib

/-!
Shallow embedding of `src/web/src/renderer/threejs-manager.ts` (class
`ThreeJSManager`), a presentation-layer adapter that renders 2D
tower-defense game state into a Three.js isometric scene.

Modelling conventions:
* JS numbers are modelled as exact rationals (`ℚ`); every arithmetic
  operation the adapter performs (affine shifts, halving, `Math.floor`
  grid snapping, scaling by 0.8 / 0.3 / 0.4 / 100) is exact on the
  values the game uses.
* Three.js objects are modelled by explicit records.  Every object added
  to the scene receives a fresh numeric id from a counter; the scene's
  children are the list of ids currently added.  Geometries and
  materials are resources with their own fresh ids, so that
  `dispose()` calls can be observed in the `disposedGeoms` /
  `disposedMats` lists.
* The Three.js raycast (`raycaster.intersectObject(groundPlane)`) is a
  library service; event handlers take the raycast outcome
  (`Option Vec3`, the hit point `intersects[0].point` or `none`) as an
  explicit argument.  Everything downstream of the raycast is
  translated from the source.
* The 2D text overlay canvas and the WebGL renderer internals carry no
  claim-relevant state and are not modelled; `window.gameApp.wasmLoader`
  presence is a boolean argument, and forwarded clicks are returned as
  an explicit list of game coordinates.
-/

/-- A 3D vector with exact rational components (models `THREE.Vector3`). -/
structure Vec3 where
  x : ℚ
  y : ℚ
  z : ℚ
deriving DecidableEq

/-- Geometry descriptors created by the draw calls. -/
inductive Geom
  | box (w h d : ℚ)
  | sphere (radius : ℚ) (widthSegments heightSegments : ℕ)
  | bufferFromPoints (points : List Vec3)
  | bufferPositions (vertices : List Vec3)
deriving DecidableEq

/-- Material descriptors created by the draw calls.  `r/g/b` channels are
divided by 255 at construction, as in the source. -/
inductive Mat
  | meshStandard (color emissive : Vec3) (metalness roughness : ℚ) (wireframe : Bool)
  | meshBasicRGB (color : Vec3) (doubleSide : Bool)
  | lineBasic (color : Vec3) (linewidth : ℚ)
deriving DecidableEq

/-- A primitive created by a draw call and pushed onto `sceneObjects`.
`isMesh` records whether the object is a `THREE.Mesh` (true for
`drawRect`, `drawCircle`, filled `drawTriangle`) or a `THREE.Line`
(false for `drawLine`, unfilled `drawTriangle`): `clear()` branches on
`obj instanceof THREE.Mesh`. -/
structure TrackedObj where
  objId : ℕ
  isMesh : Bool
  geom : Geom
  geomId : ℕ
  mat : Mat
  matId : ℕ
  position : Vec3
deriving DecidableEq

/-- One of the two long-lived preview meshes (`towerPreviewMesh`,
`rangePreviewMesh`): visibility, position, material color (hex) and
scale are mutated in place by `drawTowerPreview`. -/
structure PreviewMesh where
  objId : ℕ
  visible : Bool
  position : Vec3
  colorHex : ℕ
  scale : Vec3
deriving DecidableEq

/-- The long-lived invalid-placement indicator (`invalidPlacementMesh`),
a `THREE.Group` holding the two red X bars. -/
structure PreviewGroup where
  objId : ℕ
  visible : Bool
  position : Vec3
deriving DecidableEq

/-- The mutable state of a `ThreeJSManager` instance. -/
structure ThreeJSManager where
  gridSize : ℚ
  originalWidth : ℚ
  originalHeight : ℚ
  currentHoverPosition : ℚ × ℚ
  selectedTowerType : ℤ
  container : Bool
  groundPlane : Option ℕ
  towerPreviewMesh : Option PreviewMesh
  rangePreviewMesh : Option PreviewMesh
  invalidPlacementMesh : Option PreviewGroup
  lightIds : List ℕ
  sceneChildren : List ℕ
  sceneObjects : List TrackedObj
  disposedGeoms : List ℕ
  disposedMats : List ℕ
  nextId : ℕ
deriving DecidableEq

/-- The constructor: lights (ambient, directional, fill, rim) are created
and added to the scene; grid size 40, logical size 800×600, hover
sentinel (-1,-1). -/
def mkThreeJSManager : ThreeJSManager :=
  { gridSize := 40
    originalWidth := 800
    originalHeight := 600
    currentHoverPosition := (-1, -1)
    selectedTowerType := 0
    container := false
    groundPlane := none
    towerPreviewMesh := none
    rangePreviewMesh := none
    invalidPlacementMesh := none
    lightIds := [0, 1, 2, 3]
    sceneChildren := [0, 1, 2, 3]
    sceneObjects := []
    disposedGeoms := []
    disposedMats := []
    nextId := 4 }

/-- `createTowerPreviewMeshes`: builds the placement cube, the range disc
and the invalid-marker group, all initially invisible, and adds them to
the scene (never to `sceneObjects`). -/
def createTowerPreviewMeshes (s : ThreeJSManager) : ThreeJSManager :=
  let tower : PreviewMesh :=
    { objId := s.nextId, visible := false, position := ⟨0, 0, 0⟩
      colorHex := 0x00ffee, scale := ⟨1, 1, 1⟩ }
  let range : PreviewMesh :=
    { objId := s.nextId + 1, visible := false, position := ⟨0, 0, 0⟩
      colorHex := 0x00ffee, scale := ⟨1, 1, 1⟩ }
  let invalid : PreviewGroup :=
    { objId := s.nextId + 2, visible := false, position := ⟨0, 0, 0⟩ }
  { s with
    towerPreviewMesh := some tower
    rangePreviewMesh := some range
    invalidPlacementMesh := some invalid
    sceneChildren := s.sceneChildren ++ [tower.objId, range.objId, invalid.objId]
    nextId := s.nextId + 3 }

/-- `createGroundPlane`: ground mesh and grid helper are added to the
scene, then the preview meshes are created. -/
def createGroundPlane (s : ThreeJSManager) : ThreeJSManager :=
  let ground := s.nextId
  let gridHelper := s.nextId + 1
  let s1 :=
    { s with
      groundPlane := some ground
      sceneChildren := s.sceneChildren ++ [ground, gridHelper]
      nextId := s.nextId + 2 }
  createTowerPreviewMeshes s1

/-- `initialize()`: looks up the `canvas-container` DOM element
(`containerFound` models whether `document.getElementById` succeeds);
throws "Container element not found" when absent, otherwise attaches the
renderer, builds the ground plane and preview meshes, and returns the
logical dimensions. -/
def initManager (s : ThreeJSManager) (containerFound : Bool) :
    Except String (ThreeJSManager × ℚ × ℚ) :=
  if containerFound then
    let s1 := createGroundPlane { s with container := true }
    Except.ok (s1, s.originalWidth, s.originalHeight)
  else
    Except.error "Container element not found"

/-- The fully initialized manager state (constructor followed by a
successful `initialize()`). -/
def initializedManager : ThreeJSManager :=
  createGroundPlane { mkThreeJSManager with container := true }

/-- The grid snap used inside `screenToWorld`:
`Math.floor(p / gridSize) * gridSize + gridSize / 2`. -/
def gridSnap (gridSize p : ℚ) : ℚ :=
  ⌊p / gridSize⌋ * gridSize + gridSize / 2

/-- `screenToWorld`: the NDC computation and the camera ray cast are the
graphics library's; `hit` is the resulting intersection point with the
ground plane (`intersects[0].point`), or `none` when the ray misses.
Returns `none` before the ground plane exists, otherwise the hit point
snapped to the cell-centered grid (y forced to 0). -/
def screenToWorld (s : ThreeJSManager) (hit : Option Vec3) : Option Vec3 :=
  match s.groundPlane with
  | none => none
  | some _ =>
    hit.map fun point =>
      ⟨gridSnap s.gridSize point.x, 0, gridSnap s.gridSize point.z⟩

/-- `worldToGameCoords`: `gameX = worldX + originalWidth/2`,
`gameY = worldZ + originalHeight/2` (worldY is ignored). -/
def worldToGameCoords (s : ThreeJSManager) (worldX worldY worldZ : ℚ) : ℚ × ℚ :=
  let _ := worldY
  (worldX + s.originalWidth / 2, worldZ + s.originalHeight / 2)

/-- `gameToWorldCoords`: `worldX = gameX - originalWidth/2`,
`worldZ = gameY - originalHeight/2`, `worldY = 0`. -/
def gameToWorldCoords (s : ThreeJSManager) (gameX gameY : ℚ) : Vec3 :=
  ⟨gameX - s.originalWidth / 2, 0, gameY - s.originalHeight / 2⟩

/-- `handleMouseMove`: on a successful ground-plane intersection, store
the converted game position as the hover position; otherwise do
nothing. -/
def handleMouseMove (s : ThreeJSManager) (hit : Option Vec3) : ThreeJSManager :=
  match screenToWorld s hit with
  | some worldPos =>
    { s with currentHoverPosition := worldToGameCoords s worldPos.x worldPos.y worldPos.z }
  | none => s

/-- `handleMouseLeave`: reset hover to the sentinel and hide the three
preview meshes. -/
def handleMouseLeave (s : ThreeJSManager) : ThreeJSManager :=
  { s with
    currentHoverPosition := (-1, -1)
    towerPreviewMesh := s.towerPreviewMesh.map fun m => { m with visible := false }
    rangePreviewMesh := s.rangePreviewMesh.map fun m => { m with visible := false }
    invalidPlacementMesh := s.invalidPlacementMesh.map fun m => { m with visible := false } }

/-- `handleClick`: on a successful ground-plane intersection, forward the
converted game position to `window.gameApp.wasmLoader.handleClick` (when
that collaborator is present).  The returned list is the sequence of
forwarded (x, y) calls; the manager state is never mutated. -/
def handleClick (s : ThreeJSManager) (hit : Option Vec3) (wasmLoaderPresent : Bool) :
    ThreeJSManager × List (ℚ × ℚ) :=
  match screenToWorld s hit with
  | some worldPos =>
    let gamePos := worldToGameCoords s worldPos.x worldPos.y worldPos.z
    (s, if wasmLoaderPresent then [gamePos] else [])
  | none => (s, [])

/-- `handleTouchStart`: when exactly one touch is active, behave like a
mouse move at that touch; otherwise do nothing.  Each entry of `touches`
is that touch's raycast outcome. -/
def handleTouchStart (s : ThreeJSManager) (touches : List (Option Vec3)) : ThreeJSManager :=
  match touches with
  | [touch] =>
    match screenToWorld s touch with
    | some worldPos =>
      { s with currentHoverPosition := worldToGameCoords s worldPos.x worldPos.y worldPos.z }
    | none => s
  | _ => s

/-- `handleTouchMove`: identical single-touch handling to
`handleTouchStart`. -/
def handleTouchMove (s : ThreeJSManager) (touches : List (Option Vec3)) : ThreeJSManager :=
  match touches with
  | [touch] =>
    match screenToWorld s touch with
    | some worldPos =>
      { s with currentHoverPosition := worldToGameCoords s worldPos.x worldPos.y worldPos.z }
    | none => s
  | _ => s

/-- `handleTouchEnd`: forward a click at the current hover position when
it is non-negative (and the wasm loader is present), then reset hover to
the sentinel. -/
def handleTouchEnd (s : ThreeJSManager) (wasmLoaderPresent : Bool) :
    ThreeJSManager × List (ℚ × ℚ) :=
  let forwarded :=
    if wasmLoaderPresent ∧ 0 ≤ s.currentHoverPosition.1 ∧ 0 ≤ s.currentHoverPosition.2 then
      [s.currentHoverPosition]
    else []
  ({ s with currentHoverPosition := (-1, -1) }, forwarded)

/-- Allocate fresh ids for an object, its geometry and its material, add
the object to the scene and push it onto `sceneObjects` (the common
tail of every draw call). -/
def addTracked (s : ThreeJSManager) (isMesh : Bool) (geom : Geom) (mat : Mat)
    (position : Vec3) : ThreeJSManager :=
  let obj : TrackedObj :=
    { objId := s.nextId, isMesh := isMesh, geom := geom, geomId := s.nextId + 1
      mat := mat, matId := s.nextId + 2, position := position }
  { s with
    sceneChildren := s.sceneChildren ++ [obj.objId]
    sceneObjects := s.sceneObjects ++ [obj]
    nextId := s.nextId + 3 }

/-- `clear()`: remove every tracked object from the scene; dispose the
geometry and material(s) of those that are `THREE.Mesh` instances (the
`instanceof` test in the source — `THREE.Line` objects are removed but
not disposed); then empty `sceneObjects`.  (The 2D text-overlay
`clearRect` touches no modelled state.) -/
def clear (s : ThreeJSManager) : ThreeJSManager :=
  { s with
    sceneChildren :=
      s.sceneChildren.filter fun id => !(s.sceneObjects.any fun o => o.objId == id)
    disposedGeoms := s.disposedGeoms ++ ((s.sceneObjects.filter (·.isMesh)).map (·.geomId))
    disposedMats := s.disposedMats ++ ((s.sceneObjects.filter (·.isMesh)).map (·.matId))
    sceneObjects := [] }

/-- `drawRect`: a cube sized to `max(width, height)`, centered on the
rect's center, standing on the ground, with an emissive
`MeshStandardMaterial` — a `THREE.Mesh`. -/
def drawRect (s : ThreeJSManager) (x y width height r g b : ℚ) : ThreeJSManager :=
  let worldPos := gameToWorldCoords s (x + width / 2) (y + height / 2)
  let size := max width height
  let geometry := Geom.box (size * (8/10)) size (size * (8/10))
  let material := Mat.meshStandard
    ⟨r / 255, g / 255, b / 255⟩
    ⟨r / 255 * (3/10), g / 255 * (3/10), b / 255 * (3/10)⟩
    (7/10) (2/10) false
  addTracked s true geometry material ⟨worldPos.x, size / 2, worldPos.z⟩

/-- `drawCircle`: skip circles that look like 2D HUD artifacts (unfilled
with radius < 15, near the top of the screen with radius < 10, or with
radius < 5); otherwise add one sphere mesh hovering slightly above the
ground. -/
def drawCircle (s : ThreeJSManager) (x y radius r g b : ℚ) (fill : Bool) : ThreeJSManager :=
  if (fill = false ∧ radius < 15) ∨ (y < 20 ∧ radius < 10) ∨ radius < 5 then
    s
  else
    let worldPos := gameToWorldCoords s x y
    let geometry := Geom.sphere radius 16 16
    let material := Mat.meshStandard
      ⟨r / 255, g / 255, b / 255⟩
      ⟨r / 255 * (4/10), g / 255 * (4/10), b / 255 * (4/10)⟩
      (5/10) (3/10) (!fill)
    let hovering : ℚ := 2
    addTracked s true geometry material ⟨worldPos.x, radius + hovering, worldPos.z⟩

/-- `drawLine`: a two-point `THREE.Line` slightly above the ground with a
`LineBasicMaterial` — not a `THREE.Mesh`. -/
def drawLine (s : ThreeJSManager) (x1 y1 x2 y2 thickness r g b : ℚ) : ThreeJSManager :=
  let worldPos1 := gameToWorldCoords s x1 y1
  let worldPos2 := gameToWorldCoords s x2 y2
  let points := [Vec3.mk worldPos1.x 5 worldPos1.z, Vec3.mk worldPos2.x 5 worldPos2.z]
  let geometry := Geom.bufferFromPoints points
  let material := Mat.lineBasic ⟨r / 255, g / 255, b / 255⟩ thickness
  addTracked s false geometry material ⟨0, 0, 0⟩

/-- `drawTriangle`: three elevated vertices; a filled `THREE.Mesh` with a
double-sided basic material, or an unfilled `THREE.Line`. -/
def drawTriangle (s : ThreeJSManager) (x1 y1 x2 y2 x3 y3 r g b : ℚ) (fill : Bool) :
    ThreeJSManager :=
  let worldPos1 := gameToWorldCoords s x1 y1
  let worldPos2 := gameToWorldCoords s x2 y2
  let worldPos3 := gameToWorldCoords s x3 y3
  let vertices := [Vec3.mk worldPos1.x 5 worldPos1.z,
                   Vec3.mk worldPos2.x 5 worldPos2.z,
                   Vec3.mk worldPos3.x 5 worldPos3.z]
  let geometry := Geom.bufferPositions vertices
  let material :=
    if fill then Mat.meshBasicRGB ⟨r / 255, g / 255, b / 255⟩ true
    else Mat.lineBasic ⟨r / 255, g / 255, b / 255⟩ 1
  addTracked s fill geometry material ⟨0, 0, 0⟩

/-- `drawTowerPreview`: a negative coordinate hides all three preview
meshes; otherwise the placement cube moves to the cell and shows the
validity color, the range disc is shown scaled to `range` only when
placeable with positive range, and the invalid marker is shown exactly
when not placeable. -/
def drawTowerPreview (s : ThreeJSManager) (x y : ℚ) (canPlace : Bool) (range : ℚ) :
    ThreeJSManager :=
  if x < 0 ∨ y < 0 then
    { s with
      towerPreviewMesh := s.towerPreviewMesh.map fun m => { m with visible := false }
      rangePreviewMesh := s.rangePreviewMesh.map fun m => { m with visible := false }
      invalidPlacementMesh := s.invalidPlacementMesh.map fun m => { m with visible := false } }
  else
    let worldPos := gameToWorldCoords s x y
    let size : ℚ := 30
    { s with
      towerPreviewMesh := s.towerPreviewMesh.map fun m =>
        { m with
          position := ⟨worldPos.x, size / 2, worldPos.z⟩
          visible := true
          colorHex := if canPlace then 0x00ffee else 0xff0000 }
      rangePreviewMesh := s.rangePreviewMesh.map fun m =>
        if canPlace ∧ 0 < range then
          { m with
            position := ⟨worldPos.x, 1/2, worldPos.z⟩
            scale := ⟨range / 100, range / 100, range / 100⟩
            visible := true }
        else
          { m with visible := false }
      invalidPlacementMesh := s.invalidPlacementMesh.map fun m =>
        { m with position := ⟨worldPos.x, 10, worldPos.z⟩, visible := !canPlace } }

/-- `setSelectedTowerType`. -/
def setSelectedTowerType (s : ThreeJSManager) (type : ℤ) : ThreeJSManager :=
  { s with selectedTowerType := type }

/-- `getHoverPosition`. -/
def getHoverPosition (s : ThreeJSManager) : ℚ × ℚ :=
  s.currentHoverPosition

/-- One invocation of the adapter's public API or of one of its event
handlers, with the environment-determined raycast outcomes inlined. -/
inductive Op
  | drawRect (x y width height r g b : ℚ)
  | drawCircle (x y radius r g b : ℚ) (fill : Bool)
  | drawLine (x1 y1 x2 y2 thickness r g b : ℚ)
  | drawTriangle (x1 y1 x2 y2 x3 y3 r g b : ℚ) (fill : Bool)
  | drawTowerPreview (x y : ℚ) (canPlace : Bool) (range : ℚ)
  | clear
  | mouseMove (hit : Option Vec3)
  | mouseLeave
  | click (hit : Option Vec3) (wasmLoaderPresent : Bool)
  | touchStart (touches : List (Option Vec3))
  | touchMove (touches : List (Option Vec3))
  | touchEnd (wasmLoaderPresent : Bool)
  | setSelectedTowerType (type : ℤ)

/-- Apply one operation to the manager state (forwarded clicks
discarded). -/
def applyOp (s : ThreeJSManager) : Op → ThreeJSManager
  | .drawRect x y width height r g b => drawRect s x y width height r g b
  | .drawCircle x y radius r g b fill => drawCircle s x y radius r g b fill
  | .drawLine x1 y1 x2 y2 thickness r g b => drawLine s x1 y1 x2 y2 thickness r g b
  | .drawTriangle x1 y1 x2 y2 x3 y3 r g b fill => drawTriangle s x1 y1 x2 y2 x3 y3 r g b fill
  | .drawTowerPreview x y canPlace range => drawTowerPreview s x y canPlace range
  | .clear => clear s
  | .mouseMove hit => handleMouseMove s hit
  | .mouseLeave => handleMouseLeave s
  | .click hit wasmLoaderPresent => (handleClick s hit wasmLoaderPresent).1
  | .touchStart touches => handleTouchStart s touches
  | .touchMove touches => handleTouchMove s touches
  | .touchEnd wasmLoaderPresent => (handleTouchEnd s wasmLoaderPresent).1
  | .setSelectedTowerType type => setSelectedTowerType s type

/-- Apply a sequence of operations in order. -/
def applyOps (ops : List Op) (s : ThreeJSManager) : ThreeJSManager :=
  ops.foldl applyOp s

/-- The ids of the long-lived scene objects the claims talk about: the
four lights, the ground plane and the three preview meshes. -/
def staticIds (s : ThreeJSManager) : List ℕ :=
  s.lightIds ++ s.groundPlane.toList
    ++ (s.towerPreviewMesh.map (·.objId)).toList
    ++ (s.rangePreviewMesh.map (·.objId)).toList
    ++ (s.invalidPlacementMesh.map (·.objId)).toList

/-- Invariant maintained by every operation from the initialized state:
all long-lived ids are below the allocation counter and present in the
scene, and no tracked object carries a long-lived id. -/
def StaticInv (s : ThreeJSManager) : Prop :=
  (∀ i ∈ staticIds s, i < s.nextId) ∧
  (∀ i ∈ staticIds s, i ∈ s.sceneChildren) ∧
  (∀ o ∈ s.sceneObjects, o.objId ∉ staticIds s)

/-! ## Helper lemmas -/

lemma gridSnap_idem_of_pos (g : ℚ) (hg : 0 < g) (p : ℚ) :
    gridSnap g (gridSnap g p) = gridSnap g p := by
  unfold gridSnap
  have hne : g ≠ 0 := ne_of_gt hg
  have h1 : ((⌊p / g⌋ : ℚ) * g + g / 2) / g = (⌊p / g⌋ : ℚ) + 1 / 2 := by
    field_simp
    ring
  rw [h1, Int.floor_int_add]
  norm_num

/-! ## Claim theorems -/

/-- C2: for all finite game coordinates (x, y), `worldToGameCoords`
applied to the result of `gameToWorldCoords x y` returns exactly (x, y):
the shift by half the logical extents and its inverse (with the
game-y/world-z relabeling) are exact affine inverses. -/
theorem C2_coord_roundTrip (s : ThreeJSManager) (x y : ℚ) :
    worldToGameCoords s (gameToWorldCoords s x y).x (gameToWorldCoords s x y).y
      (gameToWorldCoords s x y).z = (x, y) := by
  unfold worldToGameCoords gameToWorldCoords
  simp

/-- C3: the grid snap used by `screenToWorld`,
`snap p = ⌊p / gridSize⌋ * gridSize + gridSize / 2` at the manager's
grid size 40, is idempotent: snapping an already-snapped coordinate
returns it unchanged. -/
theorem C3_gridSnap_idem (p : ℚ) :
    gridSnap mkThreeJSManager.gridSize (gridSnap mkThreeJSManager.gridSize p) =
      gridSnap mkThreeJSManager.gridSize p :=
  gridSnap_idem_of_pos _ (by norm_num [mkThreeJSManager]) p

/-- C4: for every prior state of the three preview primitives, calling
`drawTowerPreview` with a negative coordinate makes all three invisible
and changes nothing else about them (or the rest of the state). -/
theorem C4_preview_hidden_on_negative (s : ThreeJSManager) (x y : ℚ)
    (canPlace : Bool) (range : ℚ) (h : x < 0 ∨ y < 0) :
    drawTowerPreview s x y canPlace range =
      { s with
        towerPreviewMesh := s.towerPreviewMesh.map fun m => { m with visible := false }
        rangePreviewMesh := s.rangePreviewMesh.map fun m => { m with visible := false }
        invalidPlacementMesh := s.invalidPlacementMesh.map fun m => { m with visible := false } } := by
  unfold drawTowerPreview
  rw [if_pos h]

/-- C4 witness: at the sentinel call `drawTowerPreview (-1) (-1)` from
the initialized state (with `canPlace = true`, `range = 100`). -/
theorem C4_witness :
    drawTowerPreview initializedManager (-1) (-1) true 100 =
      { initializedManager with
        towerPreviewMesh := initializedManager.towerPreviewMesh.map fun m => { m with visible := false }
        rangePreviewMesh := initializedManager.rangePreviewMesh.map fun m => { m with visible := false }
        invalidPlacementMesh := initializedManager.invalidPlacementMesh.map fun m => { m with visible := false } } :=
  C4_preview_hidden_on_negative initializedManager (-1) (-1) true 100 (Or.inl (by norm_num))

/-- C7: `initialize()` fails fatally (throws) if and only if the expected
DOM container element is absent; when the container exists it completes
and returns the logical dimensions width × height. -/
theorem C7_init_container (s : ThreeJSManager) (containerFound : Bool) :
    ((∃ e, initManager s containerFound = Except.error e) ↔ containerFound = false) ∧
    initManager s false = Except.error "Container element not found" ∧
    (∃ s1, initManager s true = Except.ok (s1, s.originalWidth, s.originalHeight)) := by
  refine ⟨?_, rfl, ⟨createGroundPlane { s with container := true }, rfl⟩⟩
  cases containerFound <;> simp [initManager]

/-- C7 witness: on the freshly constructed manager, a missing container
aborts with the fatal error. -/
theorem C7_witness :
    initManager mkThreeJSManager false = Except.error "Container element not found" :=
  (C7_init_container mkThreeJSManager false).2.1

/-- C1 (evaluation at the failing input): one `drawLine` followed by
`clear()` empties the tracked collection, but the line's geometry
(resource id 10) and material (resource id 11) are never disposed,
because disposal is gated on `obj instanceof THREE.Mesh` and a
`THREE.Line` is not a `THREE.Mesh`. -/
theorem C1_drawLine_clear_undisposed :
    (clear (drawLine initializedManager 0 0 10 10 1 255 0 0)).sceneObjects = [] ∧
    ((drawLine initializedManager 0 0 10 10 1 255 0 0).sceneObjects.map fun o =>
      (o.geomId, o.matId)) = [(10, 11)] ∧
    (clear (drawLine initializedManager 0 0 10 10 1 255 0 0)).disposedGeoms = [] ∧
    (clear (drawLine initializedManager 0 0 10 10 1 255 0 0)).disposedMats = [] := by
  decide

/-- C5: `drawCircle` suppresses any call with `fill = false` and radius
below 15, any call with y < 20 and radius < 10, and any call with
radius < 5 (the state is completely unchanged); every other call adds
exactly one object to the scene and to the tracked collection.  In
particular `drawCircle x 18 8 r g b false` adds nothing, while
`drawCircle x 100 20 r g b true` adds exactly one tracked object. -/
theorem C5_drawCircle_filter (s : ThreeJSManager) (x y radius r g b : ℚ) (fill : Bool) :
    (((fill = false ∧ radius < 15) ∨ (y < 20 ∧ radius < 10) ∨ radius < 5) →
      drawCircle s x y radius r g b fill = s) ∧
    (¬((fill = false ∧ radius < 15) ∨ (y < 20 ∧ radius < 10) ∨ radius < 5) →
      (drawCircle s x y radius r g b fill).sceneObjects.length = s.sceneObjects.length + 1 ∧
      (drawCircle s x y radius r g b fill).sceneChildren.length = s.sceneChildren.length + 1) ∧
    drawCircle s x 18 8 r g b false = s ∧
    (drawCircle s x 100 20 r g b true).sceneObjects.length = s.sceneObjects.length + 1 := by
  refine ⟨?_, ?_, ?_, ?_⟩
  · intro h
    unfold drawCircle
    rw [if_pos h]
  · intro h
    unfold drawCircle
    rw [if_neg h]
    simp [addTracked]
  · unfold drawCircle
    rw [if_pos (Or.inl ⟨rfl, by norm_num⟩)]
  · unfold drawCircle
    rw [if_neg (by norm_num)]
    simp [addTracked]

/-- C5 witness: a radius-3 filled circle from the initialized state is
suppressed (minimum-radius clause). -/
theorem C5_witness :
    drawCircle initializedManager 0 50 3 0 0 0 true = initializedManager :=
  (C5_drawCircle_filter initializedManager 0 50 3 0 0 0 true).1
    (Or.inr (Or.inr (by norm_num)))

/-- C6: when the pointer ray hits the ground plane at point p, the click
handler forwards exactly once the game coordinates of the grid-snapped
hit; when the ray misses, nothing is forwarded and the call leaves the
state untouched. -/
theorem C6_click_forwarding (s : ThreeJSManager) (p : Vec3) (wasmLoaderPresent : Bool)
    (hground : s.groundPlane.isSome = true) :
    handleClick s (some p) true =
      (s, [worldToGameCoords s (gridSnap s.gridSize p.x) 0 (gridSnap s.gridSize p.z)]) ∧
    handleClick s none wasmLoaderPresent = (s, []) := by
  obtain ⟨g, hg⟩ := Option.isSome_iff_exists.mp hground
  constructor
  · unfold handleClick screenToWorld
    rw [hg]
    simp
  · unfold handleClick screenToWorld
    rw [hg]
    simp

/-- C6 witness: a hit at world point (130, 0, 70) snaps to the cell
center (140, 60) and forwards game coordinates (540, 360) exactly
once. -/
theorem C6_witness :
    handleClick initializedManager (some ⟨130, 0, 70⟩) true =
      (initializedManager, [(540, 360)]) := by
  rw [(C6_click_forwarding initializedManager ⟨130, 0, 70⟩ true (by decide)).1]
  norm_num [initializedManager, createGroundPlane, createTowerPreviewMeshes,
    mkThreeJSManager, gridSnap, worldToGameCoords]

/-- C9: a pointer-move or touch-move whose ray misses the ground plane
leaves the stored hover position (indeed the whole state) unchanged;
only a successful intersection updates it, and pointer-leave/touch-end
reset it to the sentinel. -/
theorem C9_hover_on_miss (s : ThreeJSManager) (touches : List (Option Vec3))
    (wasmLoaderPresent : Bool) :
    handleMouseMove s none = s ∧
    handleTouchMove s [none] = s ∧
    (touches.length ≠ 1 → handleTouchMove s touches = s) ∧
    (∀ p worldPos, screenToWorld s (some p) = some worldPos →
      handleMouseMove s (some p) =
        { s with currentHoverPosition :=
            worldToGameCoords s worldPos.x worldPos.y worldPos.z }) ∧
    (handleMouseLeave s).currentHoverPosition = (-1, -1) ∧
    (handleTouchEnd s wasmLoaderPresent).1.currentHoverPosition = (-1, -1) := by
  refine ⟨?_, ?_, ?_, ?_, rfl, rfl⟩
  · cases hg : s.groundPlane <;> simp [handleMouseMove, screenToWorld, hg]
  · cases hg : s.groundPlane <;> simp [handleTouchMove, screenToWorld, hg]
  · intro h
    match touches with
    | [] => rfl
    | [t] => exact absurd rfl h
    | a :: b :: t => rfl
  · intro p worldPos h
    simp [handleMouseMove, h]

/-- C9 witness: a two-touch move from the initialized state is ignored
entirely. -/
theorem C9_witness :
    handleTouchMove initializedManager [none, none] = initializedManager :=
  (C9_hover_on_miss initializedManager [none, none] true).2.2.1 (by decide)

/-- C10: with non-negative coordinates and `canPlace = true`, the
placement cube is shown in the accent color 0x00ffee at the cell; the
range disc is shown (scaled to range/100) exactly when range > 0 and
hidden when range ≤ 0; the invalid marker stays hidden. -/
theorem C10_range_disc (s : ThreeJSManager) (x y range : ℚ)
    (hx : 0 ≤ x) (hy : 0 ≤ y) :
    (drawTowerPreview s x y true range).towerPreviewMesh =
      s.towerPreviewMesh.map (fun m =>
        { m with
          position := ⟨(gameToWorldCoords s x y).x, 15, (gameToWorldCoords s x y).z⟩
          visible := true, colorHex := 0x00ffee }) ∧
    (0 < range →
      (drawTowerPreview s x y true range).rangePreviewMesh =
        s.rangePreviewMesh.map (fun m =>
          { m with
            position := ⟨(gameToWorldCoords s x y).x, 1/2, (gameToWorldCoords s x y).z⟩
            scale := ⟨range / 100, range / 100, range / 100⟩, visible := true })) ∧
    (range ≤ 0 →
      (drawTowerPreview s x y true range).rangePreviewMesh =
        s.rangePreviewMesh.map (fun m => { m with visible := false })) ∧
    (drawTowerPreview s x y true range).invalidPlacementMesh =
      s.invalidPlacementMesh.map (fun m =>
        { m with
          position := ⟨(gameToWorldCoords s x y).x, 10, (gameToWorldCoords s x y).z⟩
          visible := false }) := by
  have hcond : ¬(x < 0 ∨ y < 0) := by push_neg; exact ⟨hx, hy⟩
  unfold drawTowerPreview
  rw [if_neg hcond]
  refine ⟨?_, ?_, ?_, ?_⟩
  · norm_num
  · intro h
    cases hm : s.rangePreviewMesh <;> simp [hm, h]
  · intro h
    cases hm : s.rangePreviewMesh <;> simp [hm, not_lt.mpr h]
  · norm_num

/-- C10 witness: at cell (40, 40) with `canPlace = true` and zero range,
the range disc is hidden. -/
theorem C10_witness :
    (drawTowerPreview initializedManager 40 40 true 0).rangePreviewMesh =
      initializedManager.rangePreviewMesh.map (fun m => { m with visible := false }) :=
  (C10_range_disc initializedManager 40 40 0 (by norm_num) (by norm_num)).2.2.1 (by norm_num)

/-! ## Static-object invariant (for C8) -/

lemma optionMap_proj {α β : Type} (o : Option α) (f : α → α) (proj : α → β)
    (hf : ∀ m, proj (f m) = proj m) : (o.map f).map proj = o.map proj := by
  cases o <;> simp [hf]

lemma staticInv_preview_update (s : ThreeJSManager) (hp : ℚ × ℚ)
    (f g : PreviewMesh → PreviewMesh) (k : PreviewGroup → PreviewGroup)
    (hf : ∀ m, (f m).objId = m.objId) (hg : ∀ m, (g m).objId = m.objId)
    (hk : ∀ m, (k m).objId = m.objId) (h : StaticInv s) :
    StaticInv
      { s with
        currentHoverPosition := hp
        towerPreviewMesh := s.towerPreviewMesh.map f
        rangePreviewMesh := s.rangePreviewMesh.map g
        invalidPlacementMesh := s.invalidPlacementMesh.map k } := by
  have hstat :
      staticIds
        { s with
          currentHoverPosition := hp
          towerPreviewMesh := s.towerPreviewMesh.map f
          rangePreviewMesh := s.rangePreviewMesh.map g
          invalidPlacementMesh := s.invalidPlacementMesh.map k } = staticIds s := by
    unfold staticIds
    rw [optionMap_proj _ f _ hf, optionMap_proj _ g _ hg, optionMap_proj _ k _ hk]
  unfold StaticInv at h ⊢
  rw [hstat]
  exact h

lemma staticInv_hover (s : ThreeJSManager) (hp : ℚ × ℚ) (h : StaticInv s) :
    StaticInv { s with currentHoverPosition := hp } :=
  h

lemma staticInv_addTracked (s : ThreeJSManager) (isMesh : Bool) (geom : Geom)
    (mat : Mat) (position : Vec3) (h : StaticInv s) :
    StaticInv (addTracked s isMesh geom mat position) := by
  obtain ⟨hlt, hmem, htracked⟩ := h
  refine ⟨?_, ?_, ?_⟩
  · intro i hi
    have := hlt i hi
    simp only [addTracked]
    omega
  · intro i hi
    simp only [addTracked, List.mem_append]
    exact Or.inl (hmem i hi)
  · intro o ho
    simp only [addTracked, List.mem_append, List.mem_singleton] at ho
    rcases ho with ho | ho
    · exact htracked o ho
    · subst ho
      intro hmem2
      exact absurd (hlt _ hmem2) (by simp)

lemma staticInv_clear (s : ThreeJSManager) (h : StaticInv s) : StaticInv (clear s) := by
  obtain ⟨hlt, hmem, htracked⟩ := h
  refine ⟨fun i hi => hlt i hi, ?_, fun o ho => absurd ho (List.not_mem_nil o)⟩
  intro i hi
  simp only [clear, List.mem_filter]
  refine ⟨hmem i hi, ?_⟩
  simp only [Bool.not_eq_true', List.any_eq_false, beq_iff_eq]
  intro o ho he
  exact htracked o ho (he ▸ hi)

lemma sceneChildren_clear_of_static (s : ThreeJSManager) (h : StaticInv s) :
    ∀ i ∈ staticIds s, i ∈ (clear s).sceneChildren :=
  (staticInv_clear s h).2.1

lemma staticInv_applyOp (s : ThreeJSManager) (op : Op) (h : StaticInv s) :
    StaticInv (applyOp s op) := by
  cases op with
  | drawRect x y width height r g b =>
    exact staticInv_addTracked _ _ _ _ _ h
  | drawCircle x y radius r g b fill =>
    show StaticInv (drawCircle s x y radius r g b fill)
    unfold drawCircle
    split
    · exact h
    · exact staticInv_addTracked _ _ _ _ _ h
  | drawLine x1 y1 x2 y2 thickness r g b =>
    exact staticInv_addTracked _ _ _ _ _ h
  | drawTriangle x1 y1 x2 y2 x3 y3 r g b fill =>
    exact staticInv_addTracked _ _ _ _ _ h
  | drawTowerPreview x y canPlace range =>
    show StaticInv (drawTowerPreview s x y canPlace range)
    unfold drawTowerPreview
    split
    · exact staticInv_preview_update s s.currentHoverPosition _ _ _
        (fun m => rfl) (fun m => rfl) (fun m => rfl) h
    · exact staticInv_preview_update s s.currentHoverPosition _ _ _
        (fun m => rfl) (fun m => by split <;> rfl) (fun m => rfl) h
  | clear =>
    exact staticInv_clear s h
  | mouseMove hit =>
    show StaticInv (handleMouseMove s hit)
    unfold handleMouseMove
    split
    · exact staticInv_hover s _ h
    · exact h
  | mouseLeave =>
    show StaticInv (handleMouseLeave s)
    unfold handleMouseLeave
    exact staticInv_preview_update s (-1, -1) _ _ _
      (fun m => rfl) (fun m => rfl) (fun m => rfl) h
  | click hit wasmLoaderPresent =>
    show StaticInv (handleClick s hit wasmLoaderPresent).1
    unfold handleClick
    split <;> exact h
  | touchStart touches =>
    show StaticInv (handleTouchStart s touches)
    rcases touches with - | ⟨t, - | ⟨t2, rest⟩⟩
    · exact h
    · simp only [handleTouchStart]
      split
      · exact staticInv_hover s _ h
      · exact h
    · exact h
  | touchMove touches =>
    show StaticInv (handleTouchMove s touches)
    rcases touches with - | ⟨t, - | ⟨t2, rest⟩⟩
    · exact h
    · simp only [handleTouchMove]
      split
      · exact staticInv_hover s _ h
      · exact h
    · exact h
  | touchEnd wasmLoaderPresent =>
    exact staticInv_hover s _ h
  | setSelectedTowerType type =>
    exact h

lemma staticInv_applyOps (ops : List Op) (s : ThreeJSManager) (h : StaticInv s) :
    StaticInv (applyOps ops s) := by
  induction ops generalizing s with
  | nil => exact h
  | cons op rest ih => exact ih (applyOp s op) (staticInv_applyOp s op h)

lemma staticInv_initializedManager : StaticInv initializedManager := by
  refine ⟨?_, ?_, ?_⟩ <;> decide

/-- C8: from any state reachable from the initialized manager, `clear()`
never touches the three preview primitives, the ground plane or the
lights: the preview records (visibility, position, color, scale) are
exactly preserved, and every long-lived id (the four lights, the ground
plane, the three preview objects) is still a scene child after the
clear, because only tracked objects are removed and the long-lived
objects are never tracked. -/
theorem C8_clear_untouched_statics (ops : List Op) :
    (clear (applyOps ops initializedManager)).towerPreviewMesh =
      (applyOps ops initializedManager).towerPreviewMesh ∧
    (clear (applyOps ops initializedManager)).rangePreviewMesh =
      (applyOps ops initializedManager).rangePreviewMesh ∧
    (clear (applyOps ops initializedManager)).invalidPlacementMesh =
      (applyOps ops initializedManager).invalidPlacementMesh ∧
    (∀ i ∈ staticIds (applyOps ops initializedManager),
      i ∈ (clear (applyOps ops initializedManager)).sceneChildren) :=
  ⟨rfl, rfl, rfl,
    sceneChildren_clear_of_static _
      (staticInv_applyOps ops _ staticInv_initializedManager)⟩

/-- C8 witness: after one `drawRect` and the following `clear()`, the
ambient light (id 0) is still in the scene. -/
theorem C8_witness :
    0 ∈ (clear (applyOps [Op.drawRect 0 0 10 10 1 2 3] initializedManager)).sceneChildren :=
  (C8_clear_untouched_statics [Op.drawRect 0 0 10 10 1 2 3]).2.2.2 0 (by decide)
